import Mathlib

/-!
Shallow embedding of `conservation_checker_map.py`, a Streamlit app that
geocodes a UK postcode via postcodes.io, tests containment in conservation
areas, and renders a map with the areas within a 10 km buffer.

Geometric library operations (shapely / geopandas) are modelled by a free
term language `GeomE` that records exactly the operations the code applies
(CRS reprojection, metric buffering), together with a set-theoretic
interpretation into the Euclidean plane used where a claim is about metric
correctness.  Point-in-polygon / intersection tests are parameters
(`intersects : GeomE → GeomE → Bool`), since the code delegates them
wholesale to the library.
-/

/-- Coordinates coming from the geocoding API (floats in the source) are
modelled as rationals so everything stays computable. -/
abbrev Coord := ℚ

/-- shapely `Point(x, y)`: `x` is longitude, `y` is latitude. -/
structure Point where
  x : Coord
  y : Coord
deriving DecidableEq, Repr

/-- Free term language of the geometry values the script builds:
source geometries read from one of the two data files, a constructed
point, a `to_crs` reprojection, and a metric `buffer` (distance field in
the linear unit of the geometry's CRS, i.e. meters for EPSG:27700). -/
inductive GeomE where
  | src (dataset : Nat) (idx : Nat)
  | pt (x : Coord) (y : Coord)
  | reproj (g : GeomE) (toCrs : Nat)
  | buffer (g : GeomE) (dist : ℚ)
deriving DecidableEq, Repr

/-- The CRS a geometry term is expressed in.  Source files and constructed
points are geographic EPSG:4326; `to_crs` retags; `buffer` keeps the CRS of
its argument (geopandas buffers in the GeoDataFrame's current CRS). -/
def crsOf : GeomE → Nat
  | .src _ _ => 4326
  | .pt _ _ => 4326
  | .reproj _ c => c
  | .buffer g _ => crsOf g

/-- The value found in a row's `documentation-url` attribute: a string, a
pandas `NaN` (missing GeoJSON property), or absent (`row.get` → `None`). -/
inductive DocCell where
  | strVal (s : String)
  | nanVal
  | noneVal
deriving DecidableEq, Repr

/-- One row of the concatenated conservation-area GeoDataFrame, with the
attributes the script reads. -/
structure Feature where
  name : String
  reference : String
  docUrl : DocCell
  geometry : GeomE
deriving DecidableEq, Repr

/-- A GeoDataFrame: rows plus an optional declared CRS. -/
structure GDF where
  rows : List Feature
  crs : Option Nat
deriving DecidableEq, Repr

/-- `load_conservation_areas`: read the two GeoJSON files, concatenate,
construct a GeoDataFrame with `crs="EPSG:4326"`, then (dead branch) set the
CRS to 4326 if it is still undeclared.  The two file contents are inputs. -/
def load_conservation_areas (file1 file2 : List Feature) : GDF :=
  let gdf : GDF := { rows := file1 ++ file2, crs := some 4326 }
  if gdf.crs = none then { gdf with crs := some 4326 } else gdf

/-- Python `postcode.replace(' ', '')`: remove every space character. -/
def removeSpaces (s : String) : String :=
  String.mk (s.data.filter (fun c => !(c = ' ')))

/-- Removal of every whitespace character (what the spec's "all whitespace
removed" asks about; the source only removes `' '`). -/
def removeAllWhitespace (s : String) : String :=
  String.mk (s.data.filter (fun c => !c.isWhitespace))

/-- Parsed JSON body of a postcodes.io response: a `status` field and an
optional `result` object carrying the coordinates. -/
structure GeoResult where
  longitude : Coord
  latitude : Coord
deriving DecidableEq, Repr

structure ApiBody where
  status : Int
  result : Option GeoResult
deriving DecidableEq, Repr

structure HttpResp where
  status_code : Nat
  body : ApiBody
deriving DecidableEq, Repr

/-- A raised `requests` exception (network failure, timeout, ...). -/
inductive NetErr where
  | requestException
deriving DecidableEq, Repr

/-- The URL the script builds for a postcode. -/
def urlFor (postcode : String) : String :=
  "https://api.postcodes.io/postcodes/" ++ removeSpaces postcode

/-- `postcode_to_point`: one GET to postcodes.io (an exception from
`requests.get` propagates — there is no handler), `None` on a non-200
HTTP status, a non-200 body status or a missing result, otherwise
`Point(longitude, latitude)`. -/
def postcode_to_point (get : String → Except NetErr HttpResp)
    (postcode : String) : Except NetErr (Option Point) :=
  match get (urlFor postcode) with
  | .error e => .error e
  | .ok r =>
    if r.status_code ≠ 200 then .ok none
    else if r.body.status ≠ 200 then .ok none
    else
      match r.body.result with
      | none => .ok none
      | some g => .ok (some { x := g.longitude, y := g.latitude })

/-- `areas_within_radius`: wrap the point in a GeoDataFrame in EPSG:4326 and
reproject to EPSG:27700, reproject the areas to EPSG:27700, buffer the point
by `km * 1000` meters, keep the areas whose geometry intersects the buffer,
and return them reprojected to EPSG:4326 together with the (un-reprojected)
buffer geometry.  The intersection test is the shapely predicate, taken as a
parameter. -/
def areas_within_radius (intersects : GeomE → GeomE → Bool)
    (point : GeomE) (areas_gdf : List Feature) (km : ℚ) :
    List Feature × GeomE :=
  let point_m := GeomE.reproj point 27700
  let areas_m := areas_gdf.map
    (fun r => { r with geometry := GeomE.reproj r.geometry 27700 })
  let buffer_geom := GeomE.buffer point_m (km * 1000)
  let nearby := areas_m.filter (fun r => intersects r.geometry buffer_geom)
  (nearby.map (fun r => { r with geometry := GeomE.reproj r.geometry 4326 }),
   buffer_geom)

/-- The containment query `areas[areas.geometry.intersects(point)]`. -/
def containing (intersects : GeomE → GeomE → Bool)
    (point : GeomE) (areas : List Feature) : List Feature :=
  areas.filter (fun r => intersects r.geometry point)

/-- One Streamlit output element produced while rendering results. -/
inductive Msg where
  | success (t : String)
  | warning (t : String)
  | err (t : String)
  | header (t : String)
  | write (t : String)
  | link (t : String)
deriving DecidableEq, Repr

/-- The listing rendered for one containing region: a `###` header with its
name, its reference, and a documentation link exactly when the
`documentation-url` cell is a string starting with "http". -/
def renderRow (row : Feature) : List Msg :=
  [Msg.header row.name,
   Msg.write ("**Reference:** " ++ row.reference)] ++
  (match row.docUrl with
   | DocCell.strVal u =>
       if u.startsWith "http" then [Msg.link u] else []
   | _ => [])

/-- The textual verdict: success banner plus one listing per containing
region when the containment result is non-empty, else the warning banner. -/
def renderResults (inside : List Feature) : List Msg :=
  if inside.isEmpty then
    [Msg.warning "❌ This postcode is NOT in a conservation area"]
  else
    Msg.success "✅ This postcode IS in a conservation area" ::
      inside.flatMap renderRow

/-- The hover label of one nearby-region overlay: the region name, plus a
note when the `documentation-url` cell is a string (no startswith check
here, and no source tag). -/
def tooltipText (row : Feature) : String :=
  let t := row.name
  match row.docUrl with
  | DocCell.strVal _ => t ++ " (documentation available)"
  | _ => t

/-- The folium map the script builds: center and marker at the resolved
point, the raw buffer geometry as radius overlay, and one overlay per
nearby region with its tooltip. -/
structure MapData where
  center : Coord × Coord
  radiusOverlay : GeomE
  regionOverlays : List (GeomE × String)
  markerPopup : String
deriving DecidableEq, Repr

/-- Everything one submission displays: the Streamlit messages, the
containment result when the containment test ran, and the map when one was
rendered. -/
structure RunOutput where
  msgs : List Msg
  inside : Option (List Feature)
  mapData : Option MapData
deriving DecidableEq, Repr

/-- The whole per-submission flow of the script body: empty input does
nothing; a failed resolution shows the invalid-postcode error and stops
(no containment test, no map); otherwise run the containment and radius
queries, render the verdict, and render the map.  A network exception
propagates uncaught. -/
def runSubmission (get : String → Except NetErr HttpResp)
    (intersects : GeomE → GeomE → Bool)
    (areas : List Feature) (postcode : String) :
    Except NetErr RunOutput :=
  if postcode = "" then .ok { msgs := [], inside := none, mapData := none }
  else
    match postcode_to_point get postcode with
    | .error e => .error e
    | .ok none =>
        .ok { msgs := [Msg.err "❌ Invalid postcode"],
              inside := none, mapData := none }
    | .ok (some point) =>
        let ptG := GeomE.pt point.x point.y
        let inside := containing intersects ptG areas
        let res := areas_within_radius intersects ptG areas 10
        .ok { msgs := renderResults inside,
              inside := some inside,
              mapData := some
                { center := (point.y, point.x),
                  radiusOverlay := res.2,
                  regionOverlays :=
                    res.1.map (fun r => (r.geometry, tooltipText r)),
                  markerPopup := postcode } }

/-- A service that always answers 404 / no match. -/
def fetch404 : String → Except NetErr HttpResp :=
  fun _ => Except.ok { status_code := 404, body := { status := 404, result := none } }

/-- A service that always resolves to longitude 0, latitude 51. -/
def fetchOk : String → Except NetErr HttpResp :=
  fun _ => Except.ok
    { status_code := 200,
      body := { status := 200, result := some { longitude := 0, latitude := 51 } } }

/-- A service whose request always raises. -/
def fetchFail : String → Except NetErr HttpResp :=
  fun _ => Except.error NetErr.requestException

/-- A service that recognises exactly the postcode URL for `N19GU`. -/
def fetchN19GU : String → Except NetErr HttpResp :=
  fun u =>
    if u = "https://api.postcodes.io/postcodes/N19GU" then
      Except.ok
        { status_code := 200,
          body := { status := 200, result := some { longitude := 0, latitude := 51 } } }
    else
      Except.ok { status_code := 404, body := { status := 404, result := none } }

/-- A demo region, as loaded from a data file. -/
def demoFeature : Feature :=
  { name := "Alpha", reference := "R1", docUrl := DocCell.noneVal,
    geometry := GeomE.src 0 0 }

/-- The metric plane in which EPSG:27700 distances live. -/
abbrev Pt2 := EuclideanSpace ℝ (Fin 2)

/-- Idealized semantics of the library's geometry operations: a geometry
denotes the set of its true ground positions on the metric plane.  `φ`
places a geographic coordinate pair on the plane, `env` gives the point
sets of the source-file geometries, reprojection changes only the
coordinate representation (so it is the identity on ground positions), and
a buffer of distance `d` is the set of all positions within `d` of the
geometry. -/
def interpGeom (φ : Coord × Coord → Pt2) (env : Nat → Nat → Set Pt2) :
    GeomE → Set Pt2
  | .src d i => env d i
  | .pt a b => {φ (a, b)}
  | .reproj g _ => interpGeom φ env g
  | .buffer g d => {x | ∃ q ∈ interpGeom φ env g, dist x q ≤ (d : ℝ)}

/-- A concrete placement: every coordinate pair sits at the origin. -/
def wPhi : Coord × Coord → Pt2 := fun _ => 0

/-- A concrete source-geometry environment: every source geometry is the
origin point. -/
def wEnv : Nat → Nat → Set Pt2 := fun _ _ => {0}

/-- Claim C4: `postcode_to_point` returns `None` exactly when the HTTP
status is not 200, or the body status is not 200, or the body has no
result; when the service responds it returns a `Point` in every other
case. -/
theorem C4_postcode_to_point_notfound
    (resp : String → HttpResp) (pc : String) :
    (postcode_to_point (fun u => Except.ok (resp u)) pc = Except.ok none ↔
      ((resp (urlFor pc)).status_code ≠ 200 ∨
       (resp (urlFor pc)).body.status ≠ 200 ∨
       (resp (urlFor pc)).body.result = none))
    ∧ ((∃ p, postcode_to_point (fun u => Except.ok (resp u)) pc
          = Except.ok (some p)) ↔
      ¬((resp (urlFor pc)).status_code ≠ 200 ∨
        (resp (urlFor pc)).body.status ≠ 200 ∨
        (resp (urlFor pc)).body.result = none)) := by
  unfold postcode_to_point
  rcases h : (resp (urlFor pc)) with ⟨sc, ⟨bs, res⟩⟩
  by_cases h1 : sc = 200 <;> by_cases h2 : bs = 200 <;>
    rcases res with _ | g <;>
    simp [h, h1, h2]

/-- Claim C7 (amended): resolving a postcode gives the same result as
resolving it with every space character removed, because `removeSpaces`
is idempotent and the fetched URL is built from the space-stripped form. -/
theorem C7_space_stripping_invariance
    (get : String → Except NetErr HttpResp) (pc : String) :
    postcode_to_point get pc = postcode_to_point get (removeSpaces pc) := by
  have hidem : removeSpaces (removeSpaces pc) = removeSpaces pc := by
    show String.mk (List.filter _ (List.filter _ pc.data)) = _
    rw [List.filter_filter]
    simp [removeSpaces]
  unfold postcode_to_point urlFor
  rw [hidem]

/-- Claim C7, counterexample: the source only strips the space character,
so a postcode containing a tab fetches a different URL than its
whitespace-stripped form and can resolve differently. -/
theorem C7_counterexample_tab :
    postcode_to_point fetchN19GU "N1\t9GU"
      ≠ postcode_to_point fetchN19GU (removeAllWhitespace "N1\t9GU") := by
  have h1 : postcode_to_point fetchN19GU "N1\t9GU" = Except.ok none := by
    rfl
  have h2 : postcode_to_point fetchN19GU (removeAllWhitespace "N1\t9GU")
      = Except.ok (some { x := 0, y := 51 }) := by
    rfl
  rw [h1, h2]
  intro h
  simp at h

/-- Claim C5, counterexample: a network failure (a raised `requests`
exception) propagates out of the submission flow as an exception; it is not
converted into the `NotFound` resolution-failure path, so the code shows no
error message of its own for it. -/
theorem C5_counterexample_propagation :
    runSubmission fetchFail (fun _ _ => true) [] "N19GU"
        = Except.error NetErr.requestException
    ∧ runSubmission fetchFail (fun _ _ => true) [] "N19GU"
        ≠ Except.ok { msgs := [Msg.err "❌ Invalid postcode"],
                      inside := none, mapData := none } := by
  refine ⟨rfl, ?_⟩
  intro h
  have h1 : runSubmission fetchFail (fun _ _ => true) [] "N19GU"
      = Except.error NetErr.requestException := rfl
  rw [h1] at h
  exact Except.noConfusion h

/-- Claim C5 (amended): when the GET raises, `runSubmission` propagates
exactly that exception for every non-empty postcode; the resolution-failure
handling is bypassed. -/
theorem C5_network_error_propagates (e : NetErr)
    (intersects : GeomE → GeomE → Bool) (areas : List Feature)
    (pc : String) (h : pc ≠ "") :
    runSubmission (fun _ => Except.error e) intersects areas pc
      = Except.error e := by
  simp [runSubmission, h, postcode_to_point]

theorem C5_network_error_propagates_witness :
    "N19GU" ≠ "" ∧
    runSubmission (fun _ => Except.error NetErr.requestException)
        (fun _ _ => true) [] "N19GU"
      = Except.error NetErr.requestException :=
  ⟨by decide,
   C5_network_error_propagates NetErr.requestException (fun _ _ => true) []
     "N19GU" (by decide)⟩

/-- Claim C8: when resolution yields `NotFound`, the submission shows the
invalid-postcode error and halts: no containment result is computed and no
map is rendered. -/
theorem C8_notfound_halts (get : String → Except NetErr HttpResp)
    (intersects : GeomE → GeomE → Bool) (areas : List Feature)
    (pc : String) (hpc : pc ≠ "")
    (hnf : postcode_to_point get pc = Except.ok none) :
    runSubmission get intersects areas pc
      = Except.ok { msgs := [Msg.err "❌ Invalid postcode"],
                    inside := none, mapData := none } := by
  simp [runSubmission, hpc, hnf]

theorem C8_notfound_halts_witness :
    ("ZZ999ZZ" ≠ "" ∧ postcode_to_point fetch404 "ZZ999ZZ" = Except.ok none)
    ∧ runSubmission fetch404 (fun _ _ => true) [] "ZZ999ZZ"
      = Except.ok { msgs := [Msg.err "❌ Invalid postcode"],
                    inside := none, mapData := none } :=
  ⟨⟨by decide, rfl⟩,
   C8_notfound_halts fetch404 (fun _ _ => true) [] "ZZ999ZZ" (by decide) rfl⟩

/-- Claim C9: loading is idempotent — two calls over the same two files
give the same GeoDataFrame, whose rows are exactly the concatenation of
the files (same counts, same field values) and whose CRS is EPSG:4326. -/
theorem C9_load_idempotent (f1 f2 : List Feature) :
    load_conservation_areas f1 f2 = load_conservation_areas f1 f2
    ∧ (load_conservation_areas f1 f2).rows.length = f1.length + f2.length
    ∧ (load_conservation_areas f1 f2).rows = f1 ++ f2
    ∧ (load_conservation_areas f1 f2).crs = some 4326 := by
  refine ⟨rfl, ?_, ?_, ?_⟩ <;> simp [load_conservation_areas]

/-- Claim C1, failing part: the buffer geometry handed to the map overlay
is still in EPSG:27700 — `areas_within_radius` returns `buffer_geom`
without reprojecting it back to EPSG:4326, and the script passes it to the
radius overlay as is. -/
theorem C1_buffer_overlay_not_epsg4326 :
    crsOf (areas_within_radius (fun _ _ => true) (GeomE.pt 0 51) [] 10).2 = 27700
    ∧ runSubmission fetchOk (fun _ _ => true) [] "NW54QB"
      = Except.ok
          { msgs := [Msg.warning "❌ This postcode is NOT in a conservation area"],
            inside := some [],
            mapData := some
              { center := (51, 0),
                radiusOverlay :=
                  GeomE.buffer (GeomE.reproj (GeomE.pt 0 51) 27700) (10 * 1000),
                regionOverlays := [],
                markerPopup := "NW54QB" } }
    ∧ crsOf (GeomE.buffer (GeomE.reproj (GeomE.pt 0 51) 27700) (10 * 1000))
        = 27700 :=
  ⟨rfl, rfl, rfl⟩

/-- Membership characterization of one region's listing. -/
theorem mem_renderRow (m : Msg) (r : Feature) :
    m ∈ renderRow r ↔
      m = Msg.header r.name
      ∨ m = Msg.write ("**Reference:** " ++ r.reference)
      ∨ ∃ u, m = Msg.link u ∧ r.docUrl = DocCell.strVal u
          ∧ u.startsWith "http" = true := by
  rcases hd : r.docUrl with u | _ | _
  · by_cases hs : u.startsWith "http" = true
    · simp [renderRow, hd, hs]
      constructor
      · rintro (h | h | h)
        · exact Or.inl h
        · exact Or.inr (Or.inl h)
        · exact Or.inr (Or.inr ⟨u, h, rfl, hs⟩)
      · rintro (h | h | ⟨u', h, he, _⟩)
        · exact Or.inl h
        · exact Or.inr (Or.inl h)
        · cases he
          exact Or.inr (Or.inr h)
    · simp [renderRow, hd, hs]
      constructor
      · rintro (h | h)
        · exact Or.inl h
        · exact Or.inr (Or.inl h)
      · rintro (h | h | ⟨u', h, he, hsw⟩)
        · exact Or.inl h
        · exact Or.inr h
        · cases he
          exact absurd hsw hs
  · simp [renderRow, hd]
  · simp [renderRow, hd]

/-- Claim C10: a documentation link appears in a region's listing exactly
when the `documentation-url` cell is a string starting with "http"; every
other value is silently omitted. -/
theorem C10_doc_link_iff (r : Feature) (u : String) :
    Msg.link u ∈ renderRow r ↔
      r.docUrl = DocCell.strVal u ∧ u.startsWith "http" = true := by
  rw [mem_renderRow]
  constructor
  · rintro (h | h | ⟨u', h, hd, hs⟩)
    · exact absurd h (by simp)
    · exact absurd h (by simp)
    · cases h
      exact ⟨hd, hs⟩
  · rintro ⟨hd, hs⟩
    exact Or.inr (Or.inr ⟨u, rfl, hd, hs⟩)

/-- Region listings contribute no banner messages. -/
theorem no_banner_in_rows (t : String) (c : List Feature) :
    Msg.success t ∉ c.flatMap renderRow ∧ Msg.warning t ∉ c.flatMap renderRow := by
  constructor <;>
  · intro h
    rcases List.mem_flatMap.mp h with ⟨r, _, hm⟩
    rcases (mem_renderRow _ r).mp hm with h' | h' | ⟨u, h', _, _⟩ <;> simp at h'

/-- Claim C3: the success banner appears exactly when the containment query
returns at least one region, the warning banner exactly when it returns
none, and the listings carry exactly the names, references and (http)
documentation links of the containing regions. -/
theorem C3_verdict_iff_containing (intersects : GeomE → GeomE → Bool)
    (p : GeomE) (areas : List Feature) :
    (Msg.success "✅ This postcode IS in a conservation area"
        ∈ renderResults (containing intersects p areas)
      ↔ containing intersects p areas ≠ [])
    ∧ (Msg.warning "❌ This postcode is NOT in a conservation area"
        ∈ renderResults (containing intersects p areas)
      ↔ containing intersects p areas = [])
    ∧ (∀ n, Msg.header n ∈ renderResults (containing intersects p areas)
      ↔ ∃ r, r ∈ containing intersects p areas ∧ r.name = n)
    ∧ (∀ s, Msg.write s ∈ renderResults (containing intersects p areas)
      ↔ ∃ r, r ∈ containing intersects p areas
          ∧ s = "**Reference:** " ++ r.reference)
    ∧ (∀ u, Msg.link u ∈ renderResults (containing intersects p areas)
      ↔ ∃ r, r ∈ containing intersects p areas
          ∧ r.docUrl = DocCell.strVal u ∧ u.startsWith "http" = true) := by
  rcases hc : containing intersects p areas with _ | ⟨r0, rs⟩
  · refine ⟨by simp [renderResults], by simp [renderResults], ?_, ?_, ?_⟩ <;>
      intro z <;> simp [renderResults]
  · have hne : ((r0 :: rs : List Feature)).isEmpty = false := rfl
    refine ⟨?_, ?_, ?_, ?_, ?_⟩
    · simp [renderResults, hne]
    · simp only [renderResults, hne, Bool.false_eq_true, if_false, List.mem_cons]
      constructor
      · rintro (h | h)
        · exact absurd h (by simp)
        · exact absurd h (no_banner_in_rows _ _).2
      · intro h
        exact absurd h (by simp)
    · intro n
      simp only [renderResults, hne, Bool.false_eq_true, if_false, List.mem_cons]
      constructor
      · rintro (h | h)
        · exact absurd h (by simp)
        · rcases List.mem_flatMap.mp h with ⟨r, hr, hm⟩
          rcases (mem_renderRow _ r).mp hm with h' | h' | ⟨u, h', _, _⟩
          · cases h'
            exact ⟨r, List.mem_cons.mp hr, rfl⟩
          · exact absurd h' (by simp)
          · exact absurd h' (by simp)
      · rintro ⟨r, hr, hn⟩
        refine Or.inr (List.mem_flatMap.mpr ⟨r, List.mem_cons.mpr hr, ?_⟩)
        rw [mem_renderRow]
        exact Or.inl (by rw [hn])
    · intro s
      simp only [renderResults, hne, Bool.false_eq_true, if_false, List.mem_cons]
      constructor
      · rintro (h | h)
        · exact absurd h (by simp)
        · rcases List.mem_flatMap.mp h with ⟨r, hr, hm⟩
          rcases (mem_renderRow _ r).mp hm with h' | h' | ⟨u, h', _, _⟩
          · exact absurd h' (by simp)
          · cases h'
            exact ⟨r, List.mem_cons.mp hr, rfl⟩
          · exact absurd h' (by simp)
      · rintro ⟨r, hr, hs⟩
        refine Or.inr (List.mem_flatMap.mpr ⟨r, List.mem_cons.mpr hr, ?_⟩)
        rw [mem_renderRow]
        exact Or.inr (Or.inl (by rw [hs]))
    · intro u
      simp only [renderResults, hne, Bool.false_eq_true, if_false, List.mem_cons]
      constructor
      · rintro (h | h)
        · exact absurd h (by simp)
        · rcases List.mem_flatMap.mp h with ⟨r, hr, hm⟩
          rcases (mem_renderRow _ r).mp hm with h' | h' | ⟨u', h', hd, hsw⟩
          · exact absurd h' (by simp)
          · exact absurd h' (by simp)
          · cases h'
            exact ⟨r, List.mem_cons.mp hr, hd, hsw⟩
      · rintro ⟨r, hr, hd, hsw⟩
        refine Or.inr (List.mem_flatMap.mpr ⟨r, List.mem_cons.mpr hr, ?_⟩)
        rw [mem_renderRow]
        exact Or.inr (Or.inr ⟨u, rfl, hd, hsw⟩)

/-- Claim C6, counterexample: a region record loaded from the first data
file is indistinguishable from the same record loaded from the second file
— no field records the origin dataset — and the hover label of its overlay
is exactly the bare region name, with no source tag in it. -/
theorem C6_counterexample_no_source_tag :
    (load_conservation_areas [demoFeature] []).rows
      = (load_conservation_areas [] [demoFeature]).rows
    ∧ tooltipText demoFeature = "Alpha"
    ∧ runSubmission fetchOk (fun _ _ => true) [demoFeature] "NW54QB"
      = Except.ok
          { msgs := [Msg.success "✅ This postcode IS in a conservation area",
                     Msg.header "Alpha", Msg.write "**Reference:** R1"],
            inside := some [demoFeature],
            mapData := some
              { center := (51, 0),
                radiusOverlay :=
                  GeomE.buffer (GeomE.reproj (GeomE.pt 0 51) 27700) (10 * 1000),
                regionOverlays :=
                  [(GeomE.reproj (GeomE.reproj (GeomE.src 0 0) 27700) 4326,
                    "Alpha")],
                markerPopup := "NW54QB" } } :=
  ⟨rfl, rfl, rfl⟩

/-- Claim C6 (amended): loading adds no field to the source rows (in
particular no source tag), and a nearby overlay's hover label is the region
name alone, extended by a documentation note exactly when the
`documentation-url` cell is a string. -/
theorem C6_tooltip_name_only (f1 f2 : List Feature) (r : Feature) :
    (load_conservation_areas f1 f2).rows = f1 ++ f2
    ∧ (tooltipText r = r.name
        ∨ tooltipText r = r.name ++ " (documentation available)")
    ∧ ((∃ s, r.docUrl = DocCell.strVal s)
        ↔ tooltipText r = r.name ++ " (documentation available)") := by
  refine ⟨by simp [load_conservation_areas], ?_, ?_⟩
  · rcases hd : r.docUrl with u | _ | _ <;> simp [tooltipText, hd]
  · rcases hd : r.docUrl with u | _ | _
    · simp [tooltipText, hd]
    · simp only [tooltipText, hd]
      constructor
      · rintro ⟨s, hs⟩
        exact absurd hs (by simp)
      · intro h
        have := congrArg String.length h
        rw [String.length_append] at this
        simp at this
        exact absurd this (by decide)
    · simp only [tooltipText, hd]
      constructor
      · rintro ⟨s, hs⟩
        exact absurd hs (by simp)
      · intro h
        have := congrArg String.length h
        rw [String.length_append] at this
        simp at this
        exact absurd this (by decide)

/-- Under the idealized semantics, the 10 km buffer around the point
denotes the closed 10000 m disc around its position. -/
theorem interp_buffer_eq_disc (φ : Coord × Coord → Pt2)
    (env : Nat → Nat → Set Pt2) (a b : Coord) :
    interpGeom φ env
        (GeomE.buffer (GeomE.reproj (GeomE.pt a b) 27700) (10 * 1000))
      = {x | dist x (φ (a, b)) ≤ 10000} := by
  ext x
  simp only [interpGeom, Set.mem_setOf_eq, Set.mem_singleton_iff,
    exists_eq_left]
  norm_num

/-- Claim C2: whenever the library's intersection test is metrically
correct on the tested pairs, `areas_within_radius` with radius 10 km
(i) never returns a region whose minimum distance to the point exceeds
10 km, and (ii) returns every region some point of which lies within
10 km of the point. -/
theorem C2_within_radius_10km (φ : Coord × Coord → Pt2)
    (env : Nat → Nat → Set Pt2) (intersects : GeomE → GeomE → Bool)
    (a b : Coord) (areas : List Feature)
    (hOracle : ∀ r ∈ areas,
      (intersects (GeomE.reproj r.geometry 27700)
          (GeomE.buffer (GeomE.reproj (GeomE.pt a b) 27700) (10 * 1000))
        = true
       ↔ (interpGeom φ env r.geometry ∩
           interpGeom φ env
             (GeomE.buffer (GeomE.reproj (GeomE.pt a b) 27700) (10 * 1000))
          ).Nonempty)) :
    (∀ r' ∈ (areas_within_radius intersects (GeomE.pt a b) areas 10).1,
        Metric.infDist (φ (a, b)) (interpGeom φ env r'.geometry) ≤ 10000)
    ∧ (∀ r ∈ areas,
        (∃ q ∈ interpGeom φ env r.geometry, dist (φ (a, b)) q ≤ 10000) →
        { r with geometry := GeomE.reproj (GeomE.reproj r.geometry 27700) 4326 }
          ∈ (areas_within_radius intersects (GeomE.pt a b) areas 10).1) := by
  have hB := interp_buffer_eq_disc φ env a b
  constructor
  · intro r' hr'
    simp only [areas_within_radius] at hr'
    rcases List.mem_map.mp hr' with ⟨r2, hr2, rfl⟩
    rcases List.mem_filter.mp hr2 with ⟨hr2m, hpred⟩
    rcases List.mem_map.mp hr2m with ⟨r, hr, rfl⟩
    have hx := ((hOracle r hr).mp hpred)
    rcases hx with ⟨x, hx1, hx2⟩
    rw [hB] at hx2
    have h1 : interpGeom φ env
        (GeomE.reproj (GeomE.reproj r.geometry 27700) 4326)
        = interpGeom φ env r.geometry := rfl
    simp only [h1]
    calc Metric.infDist (φ (a, b)) (interpGeom φ env r.geometry)
        ≤ dist (φ (a, b)) x := Metric.infDist_le_dist_of_mem hx1
      _ = dist x (φ (a, b)) := dist_comm _ _
      _ ≤ 10000 := hx2
  · rintro r hr ⟨q, hq, hdq⟩
    have hqB : q ∈ interpGeom φ env
        (GeomE.buffer (GeomE.reproj (GeomE.pt a b) 27700) (10 * 1000)) := by
      rw [hB]
      rw [Set.mem_setOf_eq, dist_comm]
      exact hdq
    have hpred : intersects (GeomE.reproj r.geometry 27700)
        (GeomE.buffer (GeomE.reproj (GeomE.pt a b) 27700) (10 * 1000))
        = true :=
      (hOracle r hr).mpr ⟨q, hq, hqB⟩
    simp only [areas_within_radius]
    refine List.mem_map.mpr
      ⟨{ r with geometry := GeomE.reproj r.geometry 27700 }, ?_, rfl⟩
    refine List.mem_filter.mpr ⟨List.mem_map.mpr ⟨r, hr, rfl⟩, ?_⟩
    exact hpred

theorem C2_within_radius_10km_witness :
    (∀ r ∈ [demoFeature],
      ((fun _ _ => true) (GeomE.reproj r.geometry 27700)
          (GeomE.buffer (GeomE.reproj (GeomE.pt 0 0) 27700) (10 * 1000))
        = true
       ↔ (interpGeom wPhi wEnv r.geometry ∩
           interpGeom wPhi wEnv
             (GeomE.buffer (GeomE.reproj (GeomE.pt 0 0) 27700) (10 * 1000))
          ).Nonempty))
    ∧ ((∀ r' ∈ (areas_within_radius (fun _ _ => true) (GeomE.pt 0 0)
            [demoFeature] 10).1,
          Metric.infDist (wPhi (0, 0)) (interpGeom wPhi wEnv r'.geometry)
            ≤ 10000)
      ∧ (∀ r ∈ [demoFeature],
          (∃ q ∈ interpGeom wPhi wEnv r.geometry,
              dist (wPhi (0, 0)) q ≤ 10000) →
          { r with geometry :=
              GeomE.reproj (GeomE.reproj r.geometry 27700) 4326 }
            ∈ (areas_within_radius (fun _ _ => true) (GeomE.pt 0 0)
                [demoFeature] 10).1)) := by
  have hOr : ∀ r ∈ [demoFeature],
      ((fun _ _ => true) (GeomE.reproj r.geometry 27700)
          (GeomE.buffer (GeomE.reproj (GeomE.pt 0 0) 27700) (10 * 1000))
        = true
       ↔ (interpGeom wPhi wEnv r.geometry ∩
           interpGeom wPhi wEnv
             (GeomE.buffer (GeomE.reproj (GeomE.pt 0 0) 27700) (10 * 1000))
          ).Nonempty) := by
    intro r hr
    have hrd : r = demoFeature := by simpa using hr
    subst hrd
    constructor
    · intro _
      refine ⟨0, ?_, ?_⟩
      · simp [interpGeom, wEnv, demoFeature]
      · rw [interp_buffer_eq_disc]
        simp [wPhi]
    · intro _
      rfl
  exact ⟨hOr,
    C2_within_radius_10km wPhi wEnv (fun _ _ => true) 0 0 [demoFeature] hOr⟩
